import Mathlib

/-!
Verification of the dbt-cloud-webhooks-datadog-modal repository.

The development shallowly embeds the two source files of the repository,
src/app.py and src/client.py, into Lean:

* JSON values (the payloads, GraphQL responses and resource nodes the code
  manipulates) become the inductive type JVal; Python dictionaries become
  association lists with Python dict update semantics (dictSet).
* Fallible Python code (KeyError, AttributeError, ValueError, HTTPError)
  becomes Except String.
* The stateful pagination loop of DiscoveryApiClient.run_query becomes a
  recursive function over a list of mock transport responses; the requests it
  issues and the final state of the caller-supplied variables mapping are
  returned explicitly so that frame effects can be stated.
* JSON numbers are modelled as integers; the run ids and page sizes the code
  correlates are integral.
-/

/-- A JSON value, as decoded by Python json.loads.  Numbers are modelled as
integers (run ids, environment ids and page sizes are integral). -/
inductive JVal where
  | null : JVal
  | bool : Bool → JVal
  | num : Int → JVal
  | str : String → JVal
  | arr : List JVal → JVal
  | obj : List (String × JVal) → JVal

/-- First-match association-list lookup: the model of reading a key of a
Python dict (whose keys are unique). -/
def assocLookup {α : Type} (fs : List (String × α)) (k : String) : Option α :=
  match fs with
  | [] => none
  | p :: rest => if p.1 == k then some p.2 else assocLookup rest k

/-- Python dict assignment d[k] = v (also the semantics of a dict literal
that repeats a key, and of dict.update for one key): if the key is present
its value is replaced in place, otherwise the pair is appended. -/
def dictSet (fs : List (String × JVal)) (k : String) (v : JVal) : List (String × JVal) :=
  if fs.any (fun p => p.1 == k) then
    fs.map (fun p => if p.1 == k then (k, v) else p)
  else
    fs ++ [(k, v)]

/-- Python truthiness of a JSON value. -/
def truthy : JVal → Bool
  | .null => false
  | .bool b => b
  | .num n => n != 0
  | .str s => s != ""
  | .arr xs => !xs.isEmpty
  | .obj fs => !fs.isEmpty

/-- Python == between a JSON value and an int (bool is an int subtype in
Python, so True == 1 and False == 0; any other value compares unequal). -/
def pyEqInt : JVal → Int → Bool
  | .num m, n => m == n
  | .bool b, n => (if b then (1 : Int) else 0) == n
  | _, _ => false

/-- Python d[k], modelling KeyError on a missing key and TypeError when the
value is not a dict. -/
def getItem (v : JVal) (k : String) : Except String JVal :=
  match v with
  | .obj fs =>
    match assocLookup fs k with
    | some x => .ok x
    | none => .error ("KeyError: " ++ k)
  | _ => .error "TypeError: value is not subscriptable"

/-- Python d.get(k, default), modelling AttributeError when the receiver
is not a dict. -/
def dictGetD (v : JVal) (k : String) (default : JVal) : Except String JVal :=
  match v with
  | .obj fs => .ok ((assocLookup fs k).getD default)
  | _ => .error "AttributeError: value has no attribute get"

/-- Python d.get(k): default None, which is JSON null in this model. -/
def dictGet (v : JVal) (k : String) : Except String JVal :=
  dictGetD v k .null

/-- Python str.lower for the ASCII strings the code handles (resource type
names): lowercase every character. -/
def pyLowerStr (s : String) : String := String.mk (s.data.map Char.toLower)

/-- Python str.lower on a JSON value: AttributeError unless it is a string. -/
def pyLower : JVal → Except String String
  | .str s => .ok (pyLowerStr s)
  | _ => .error "AttributeError: value has no attribute lower"

/-- Whether a JSON value is a string. -/
def JVal.isStr : JVal → Bool
  | .str _ => true
  | _ => false

/-- Whether an Except computation succeeded. -/
def exceptIsOk {ε α : Type} : Except ε α → Bool
  | .ok _ => true
  | .error _ => false

/-! ## src/app.py: event types and extraction -/

/-- The WebhookEventType enum of src/app.py. -/
inductive WebhookEventType where
  | ERROR : WebhookEventType
  | COMPLETED : WebhookEventType
  | STARTED : WebhookEventType

/-- The string value carried by each WebhookEventType member. -/
def WebhookEventType.value : WebhookEventType → String
  | .ERROR => "job.run.errored"
  | .COMPLETED => "job.run.completed"
  | .STARTED => "job.run.started"

/-- Python == between a JSON-decoded value and an enum.Enum member, as in the
handler test payload["eventType"] != WebhookEventType.STARTED.  For a str
operand, str.__eq__ returns NotImplemented on an Enum argument and
Enum.__eq__ falls back to identity comparison, so no JSON value is ever equal
to an enum member: the comparison is constantly false. -/
def jvalEqEnum (_ : JVal) (_ : WebhookEventType) : Bool := false

/-- NODE_TYPES of src/app.py. -/
def NODE_TYPES : List String := ["Model", "Seed", "Snapshot", "Test"]

/-- DATADOG_MAX_LIST_SIZE of src/app.py. -/
def DATADOG_MAX_LIST_SIZE : Nat := 1000

/-- The nested helper get_execution_info of get_run_metadata (src/app.py).
Returns the truthiness of in_run together with execution_info_key.  Faithful
to the source: resource_type = node.get("resourceType", "").lower() raises
when the value present under resourceType is not a string; the key is
f"{resource_type}ExecutionInfo" when resource_type is nonempty, else None;
in_run is the short-circuit conjunction
execution_info_key and node.get(key) and node.get(key).get("lastRunId") == run_id,
whose third conjunct raises when the truthy sub-record is not a dict. -/
def get_execution_info (node : JVal) (run_id : Int) : Except String (Bool × Option String) :=
  match dictGetD node "resourceType" (.str "") with
  | .error e => .error e
  | .ok rtv =>
    match pyLower rtv with
    | .error e => .error e
    | .ok resource_type =>
      if resource_type = "" then
        .ok (false, none)
      else
        let execution_info_key := resource_type ++ "ExecutionInfo"
        match dictGet node execution_info_key with
        | .error e => .error e
        | .ok sub =>
          if truthy sub then
            match dictGet sub "lastRunId" with
            | .error e => .error e
            | .ok lastRun => .ok (pyEqInt lastRun run_id, some execution_info_key)
          else
            .ok (false, some execution_info_key)

/-- One iteration of the edge loop of get_run_metadata (src/app.py): reads
edge["node"], evaluates get_execution_info and, for an in-run node, builds
the dict literal with all fields except the type-specific execution-info key
plus the key executionInfo bound to edge["node"][execution_info_key].
Returns none when the edge is skipped. -/
def processEdge (run_id : Int) (edge : JVal) : Except String (Option JVal) :=
  match getItem edge "node" with
  | .error e => .error e
  | .ok node =>
    match get_execution_info node run_id with
    | .error e => .error e
    | .ok (in_run, execution_info_key) =>
      if in_run then
        match execution_info_key with
        | none => .error "KeyError: None"
        | some key =>
          match getItem node key with
          | .error e => .error e
          | .ok info =>
            match node with
            | .obj fs =>
              .ok (some (.obj (dictSet (fs.filter (fun p => p.1 != key)) "executionInfo" info)))
            | _ => .error "TypeError: node items"
      else
        .ok none

/-- get_run_metadata of src/app.py: fold processEdge over the edges in order,
collecting the normalized in-run nodes; the first raised error aborts the
whole call with no partial result. -/
def get_run_metadata (edges : List JVal) (run_id : Int) : Except String (List JVal) :=
  match edges with
  | [] => .ok []
  | e :: rest =>
    match processEdge run_id e with
    | .error msg => .error msg
    | .ok r =>
      match get_run_metadata rest run_id with
      | .error msg => .error msg
      | .ok rest_nodes =>
        .ok (match r with
             | some n => n :: rest_nodes
             | none => rest_nodes)

/-- chunker of src/app.py:
(seq[pos : pos + size] for pos in range(0, len(seq), size)) with
size = DATADOG_MAX_LIST_SIZE.  range(0, n, step) has ceil(n / step)
elements 0, step, 2*step, ...; the slice seq[pos : pos + size] is
(seq.drop pos).take size. -/
def chunker {α : Type} (seq : List α) : List (List α) :=
  let size := DATADOG_MAX_LIST_SIZE
  (List.range' 0 ((seq.length + size - 1) / size) size).map
    (fun pos => (seq.drop pos).take size)

example : chunker [1, 2, 3] = [[1, 2, 3]] := by decide
example : get_run_metadata [JVal.obj [("node", JVal.obj [("resourceType", JVal.str "Model"), ("modelExecutionInfo", JVal.obj [("lastRunId", JVal.num 5)])])]] 5 = .ok [JVal.obj [("resourceType", JVal.str "Model"), ("executionInfo", JVal.obj [("lastRunId", JVal.num 5)])]] := rfl

/-! ## Python rendering and int() coercion helpers used by the handler -/

mutual
/-- Python repr of a JSON value (used by str() for elements of containers).
Strings are quoted with an apostrophe (escape sequences are not modelled;
no claim depends on the rendering of container values). -/
def pyRepr : JVal → String
  | .null => "None"
  | .bool true => "True"
  | .bool false => "False"
  | .num n => toString n
  | .str s => "\x27" ++ s ++ "\x27"
  | .arr xs => "[" ++ pyReprSeq xs ++ "]"
  | .obj fs => "\x7b" ++ pyReprFields fs ++ "\x7d"

/-- Comma-separated reprs of the elements of a list. -/
def pyReprSeq : List JVal → String
  | [] => ""
  | [x] => pyRepr x
  | x :: xs => pyRepr x ++ ", " ++ pyReprSeq xs

/-- Comma-separated reprs of the entries of a dict. -/
def pyReprFields : List (String × JVal) → String
  | [] => ""
  | [p] => "\x27" ++ p.1 ++ "\x27: " ++ pyRepr p.2
  | p :: ps => "\x27" ++ p.1 ++ "\x27: " ++ pyRepr p.2 ++ ", " ++ pyReprFields ps
end

/-- Python str() of a JSON value, as used by "{}:{}".format on tag values:
identity on strings, repr-style rendering otherwise. -/
def pyStr : JVal → String
  | .str s => s
  | v => pyRepr v

/-- Python whitespace strip, as performed by int() on string arguments. -/
def pyStrip (s : String) : String :=
  String.mk (((s.data.dropWhile Char.isWhitespace).reverse.dropWhile Char.isWhitespace).reverse)

/-- Decimal value of a digit list. -/
def digitsToNat (cs : List Char) : Nat :=
  cs.foldl (fun a c => a * 10 + (c.toNat - 48)) 0

/-- Python int(s) for a string argument: optional surrounding whitespace,
optional sign, then one or more decimal digits (digit-group underscores are
not modelled). -/
def parsePyIntStr (s : String) : Option Int :=
  match (pyStrip s).data with
  | [] => none
  | c :: rest =>
    if c = '-' then
      if rest ≠ [] ∧ rest.all Char.isDigit then some (-(digitsToNat rest : Int)) else none
    else if c = '+' then
      if rest ≠ [] ∧ rest.all Char.isDigit then some (digitsToNat rest : Int) else none
    else
      if (c :: rest).all Char.isDigit then some (digitsToNat (c :: rest) : Int) else none

/-- Python int() on a JSON value: identity on numbers, bool as 0 or 1,
decimal parse on strings (ValueError on failure), TypeError otherwise. -/
def pyInt : JVal → Except String Int
  | .num n => .ok n
  | .bool b => .ok (if b then 1 else 0)
  | .str s =>
    match parsePyIntStr s with
    | some n => .ok n
    | none => .error ("ValueError: invalid literal for int with base 10: " ++ s)
  | _ => .error "TypeError: int argument must be a string or a number"

example : pyInt (JVal.str "55") = .ok 55 := rfl
example : pyInt (JVal.str " -7 ") = .ok (-7) := rfl
example : pyInt (JVal.str "x7") = .error ("ValueError: invalid literal for int with base 10: x7") := rfl

/-! ## src/client.py: DiscoveryApiClient over a mock transport

The network is abstracted as a list of HttpResponse values, one per request
the loop issues, in order; requests.post consumes the next one.  The query
string is passed through to the transport verbatim and never inspected by
the client logic, so it is not threaded through the model.  The requests the
client issues (headers and the vars mapping at post time) are recorded
so that authentication and the mutation of the caller-supplied variables
mapping can be stated. -/

/-- Process configuration read by src/client.py via os.getenv. -/
structure Env where
  DBT_CLOUD_SERVICE_TOKEN : Option String
  DBT_CLOUD_METADATA_URL : Option String

/-- An HTTP response of the mock transport: status code and decoded JSON
body (response.json()). -/
structure HttpResponse where
  status : Nat
  body : JVal

/-- One recorded outbound POST: its headers and the content of the variables
mapping at the time of the request. -/
structure ApiRequest where
  headers : List (String × String)
  vars : List (String × JVal)

/-- DiscoveryApiClient.DEFAULT_URL of src/client.py. -/
def DEFAULT_URL : String := "https://metadata.cloud.getdbt.com/graphql"

/-- DiscoveryApiClient state after __init__. -/
structure DiscoveryApiClient where
  environment_id : JVal
  token : String
  url : String

/-- DiscoveryApiClient.__init__ of src/client.py: reads the service token and
the metadata URL from configuration and raises
ValueError("DBT_CLOUD_SERVICE_TOKEN is not set") when the token is absent. -/
def clientInit (env : Env) (environment_id : JVal) : Except String DiscoveryApiClient :=
  match env.DBT_CLOUD_SERVICE_TOKEN with
  | none => .error "DBT_CLOUD_SERVICE_TOKEN is not set"
  | some t => .ok ⟨environment_id, t, env.DBT_CLOUD_METADATA_URL.getD DEFAULT_URL⟩

/-- The headers _run_query_with_cursor sends on every request. -/
def mkHeaders (c : DiscoveryApiClient) : List (String × String) :=
  [("Authorization", "Bearer " ++ c.token), ("content-type", "application/json")]

/-- variables.update performed by _run_query_with_cursor before each post:
the keys environmentId, limit, after, first are written in that order into
the caller-supplied mapping. -/
def update_variables (c : DiscoveryApiClient) (limit : Int) (after_cursor : JVal)
    (vars : List (String × JVal)) : List (String × JVal) :=
  dictSet (dictSet (dictSet (dictSet vars
    "environmentId" c.environment_id)
    "limit" (.num limit))
    "after" after_cursor)
    "first" (.num limit)

/-- response.raise_for_status(): raises requests.HTTPError for 4xx and 5xx
status codes. -/
def raise_for_status (r : HttpResponse) : Except String Unit :=
  if 400 ≤ r.status ∧ r.status < 600 then
    .error ("HTTPError: " ++ toString r.status)
  else
    .ok ()

/-- The shared indexing chain
api_response["data"]["environment"]["applied"]["resources"] of
_get_next_page_cursor and _extract_query_results. -/
def resourcesOf (api_response : JVal) : Except String JVal :=
  match getItem api_response "data" with
  | .error e => .error e
  | .ok d =>
    match getItem d "environment" with
    | .error e => .error e
    | .ok environment =>
      match getItem environment "applied" with
      | .error e => .error e
      | .ok applied => getItem applied "resources"

/-- DiscoveryApiClient._get_next_page_cursor of src/client.py: returns
pageInfo["endCursor"] when pageInfo.get("hasNextPage", False) is truthy and
Python None (JSON null here) otherwise. -/
def get_next_page_cursor (api_response : JVal) : Except String JVal :=
  match resourcesOf api_response with
  | .error e => .error e
  | .ok resources =>
    match getItem resources "pageInfo" with
    | .error e => .error e
    | .ok page =>
      match dictGetD page "hasNextPage" (.bool false) with
      | .error e => .error e
      | .ok hasNext =>
        if truthy hasNext then getItem page "endCursor" else .ok .null

/-- DiscoveryApiClient._extract_query_results of src/client.py:
resources["edges"]. -/
def extract_query_results (api_response : JVal) : Except String JVal :=
  match resourcesOf api_response with
  | .error e => .error e
  | .ok resources => getItem resources "edges"

/-- One iteration body of the run_query loop applied to the next transport
response: raise_for_status, then _get_next_page_cursor, then
_extract_query_results (in source order); all_results.extend requires the
edges value to be a list.  Returns the new cursor and the page edges. -/
def page_step (r : HttpResponse) : Except String (JVal × List JVal) :=
  match raise_for_status r with
  | .error e => .error e
  | .ok _ =>
    match get_next_page_cursor r.body with
    | .error e => .error e
    | .ok cursor =>
      match extract_query_results r.body with
      | .error e => .error e
      | .ok (.arr results) => .ok (cursor, results)
      | .ok _ => .error "TypeError: edges value is not a list"

/-- The outcome of run_query: its result, the requests issued in order, and
the final contents of the caller-supplied vars mapping (which
_run_query_with_cursor mutates in place on every request). -/
structure QueryOutcome where
  result : Except String (List JVal)
  requests : List ApiRequest
  vars : List (String × JVal)

/-- The while-True loop of DiscoveryApiClient.run_query of src/client.py,
consuming one mock response per request: update the vars mapping with
the current cursor, record the request, run the page step, extend the
accumulator, and continue until the cursor is falsy.  Running out of mock
responses models a transport that never answered. -/
def run_query_go (c : DiscoveryApiClient) (limit : Int) :
    List HttpResponse → JVal → List (String × JVal) → List JVal → List ApiRequest →
    QueryOutcome
  | [], _, vars, _, reqs => ⟨.error "mock transport exhausted", reqs, vars⟩
  | r :: rest, cursor, vars, acc, reqs =>
    let variables1 := update_variables c limit cursor vars
    let reqs1 := reqs ++ [⟨mkHeaders c, variables1⟩]
    match page_step r with
    | .error e => ⟨.error e, reqs1, variables1⟩
    | .ok (cursor1, results) =>
      if truthy cursor1 then
        run_query_go c limit rest cursor1 variables1 (acc ++ results) reqs1
      else
        ⟨.ok (acc ++ results), reqs1, variables1⟩

/-- DiscoveryApiClient.run_query of src/client.py (limit defaults to 500 at
the call site): cursor starts as None, all_results starts empty; a None
variables argument is replaced by a fresh empty dict. -/
def DiscoveryApiClient.run_query (c : DiscoveryApiClient)
    (vars : Option (List (String × JVal))) (limit : Int)
    (responses : List HttpResponse) : QueryOutcome :=
  run_query_go c limit responses .null (vars.getD []) [] []

/-! ## src/app.py: webhook orchestrator

Signature verification, the Modal/FastAPI wrappers and the Datadog SDK are
external collaborators; the handler model starts after a verified request
with the decoded JSON payload, and records each Datadog batch submission
instead of performing it (submissions are collected, and the commented-out
failure check in the source means their outcome does not affect the
response).  json.dumps of a node is modelled by carrying the JSON value
itself in the message field. -/

/-- A datadog_api_client HTTPLogItem as built by the handler. -/
structure HTTPLogItem where
  ddsource : String
  ddtags : String
  hostname : String
  message : JVal
  service : String

/-- The observable outcome of one webhook_handler invocation: the returned
value or raised error, the metadata API requests issued, and the log batches
submitted to Datadog. -/
structure HandlerOutcome where
  result : Except String JVal
  requests : List ApiRequest
  batches : List (List HTTPLogItem)

/-- An invocation that raised before any fetch or submission. -/
def errOutcome (e : String) : HandlerOutcome := ⟨.error e, [], []⟩

/-- The handler success response, the dict literal returned by
webhook_handler. -/
def successBody : JVal := .obj [("status", .str "success")]

/-- The tags dict literal of webhook_handler, with its keys in source
order; each lookup may raise KeyError. -/
def buildTags (payload data : JVal) : Except String (List (String × JVal)) :=
  match getItem data "projectName" with
  | .error e => .error e
  | .ok projectName =>
    match getItem data "environmentName" with
    | .error e => .error e
    | .ok environmentName =>
      match getItem data "jobName" with
      | .error e => .error e
      | .ok jobName =>
        match getItem data "runId" with
        | .error e => .error e
        | .ok runId =>
          match getItem payload "webhookName" with
          | .error e => .error e
          | .ok webhookName =>
            match getItem data "runReason" with
            | .error e => .error e
            | .ok runReason =>
              .ok [("project_name", projectName),
                   ("environment_name", environmentName),
                   ("job_name", jobName),
                   ("run_id", runId),
                   ("webhook_name", webhookName),
                   ("run_reason", runReason)]

/-- ddtags as built by the handler:
",".flatten("\x7b\x7d:\x7b\x7d".format(*i) for i in tags.items()). -/
def mkDdtags (tags : List (String × JVal)) : String :=
  String.intercalate "," (tags.map (fun p => p.1 ++ ":" ++ pyStr p.2))

/-- One HTTPLogItem of the handler loop over nodes. -/
def mkLogItem (tags : List (String × JVal)) (url : String) (node : JVal) : HTTPLogItem :=
  ⟨"dbt_cloud", mkDdtags tags, url, node, "dbt_cloud_webhooks"⟩

/-- The variables argument the handler passes to run_query. -/
def queryVariables : List (String × JVal) :=
  [("filter", .obj [("types", .arr (NODE_TYPES.map JVal.str))])]

/-- The tail of webhook_handler after the client is built: run the paged
fetch (errors are logged and re-raised unchanged, with no log submission),
then int(data["runId"]), then get_run_metadata, then build one log item per
node and submit the chunked batches; any raised error propagates with no
batches submitted. -/
def handlerDispatch (client : DiscoveryApiClient) (tags : List (String × JVal))
    (data : JVal) (o : QueryOutcome) : HandlerOutcome :=
  match o.result with
  | .error e => ⟨.error e, o.requests, []⟩
  | .ok edges =>
    match getItem data "runId" with
    | .error e => ⟨.error e, o.requests, []⟩
    | .ok runIdVal =>
      match pyInt runIdVal with
      | .error e => ⟨.error e, o.requests, []⟩
      | .ok run_id =>
        match get_run_metadata edges run_id with
        | .error e => ⟨.error e, o.requests, []⟩
        | .ok nodes =>
          ⟨.ok successBody, o.requests,
           chunker (nodes.map (mkLogItem tags client.url))⟩

/-- webhook_handler of src/app.py, after signature verification, evaluated
against configuration env, decoded payload and the mock transport: reads
payload["data"] and payload["eventType"], compares the event type with the
enum member WebhookEventType.STARTED (a comparison that is constantly
unequal, see jvalEqEnum), and on the unequal branch builds the tags dict,
constructs the DiscoveryApiClient and runs the fetch-extract-batch-dispatch
pipeline.  Only when the comparison judged the event equal to STARTED would
it skip directly to the success response. -/
def webhook_handler (env : Env) (payload : JVal) (responses : List HttpResponse) :
    HandlerOutcome :=
  match getItem payload "data" with
  | .error e => errOutcome e
  | .ok data =>
    match getItem payload "eventType" with
    | .error e => errOutcome e
    | .ok event_type =>
      if jvalEqEnum event_type WebhookEventType.STARTED then
        ⟨.ok successBody, [], []⟩
      else
        match buildTags payload data with
        | .error e => errOutcome e
        | .ok tags =>
          match getItem data "environmentId" with
          | .error e => errOutcome e
          | .ok environment_id =>
            match clientInit env environment_id with
            | .error e => errOutcome e
            | .ok client =>
              handlerDispatch client tags data
                (client.run_query (some queryVariables) 500 responses)

/-! ## Mock transport pages and concrete demo inputs -/

/-- A response body of the shape the metadata API returns:
data.environment.applied.resources with edges and pageInfo. -/
def mkPageBody (edges : List JVal) (pageInfo : List (String × JVal)) : JVal :=
  .obj [("data", .obj [("environment", .obj [("applied", .obj [("resources",
    .obj [("edges", .arr edges), ("pageInfo", .obj pageInfo)])])])])]

/-- A successful (HTTP 200) page response. -/
def mkResponse (edges : List JVal) (pageInfo : List (String × JVal)) : HttpResponse :=
  ⟨200, mkPageBody edges pageInfo⟩

/-- pageInfo of a page that has a next page, with its cursor. -/
def pageInfoNext (cursor : String) : List (String × JVal) :=
  [("hasNextPage", .bool true), ("endCursor", .str cursor)]

/-- pageInfo of a final page: hasNextPage is false when hasKey is true and
absent when hasKey is false (both end the pagination loop). -/
def pageInfoLast (hasKey : Bool) : List (String × JVal) :=
  if hasKey then [("hasNextPage", .bool false), ("endCursor", .null)]
  else [("endCursor", .null)]

/-- The continuing pages of a mock pagination run: each carries its edges
and the cursor it hands to the next request. -/
def mkContinuing (pages : List (List JVal × String)) : List HttpResponse :=
  pages.map (fun p => mkResponse p.1 (pageInfoNext p.2))

/-- A full mock pagination run: continuing pages followed by one final
page. -/
def mockResponses (pages : List (List JVal × String)) (lastEdges : List JVal)
    (lastHasKey : Bool) : List HttpResponse :=
  mkContinuing pages ++ [mkResponse lastEdges (pageInfoLast lastHasKey)]

/-- The cursor carried by the last request of a mock pagination run that
starts from cursor null. -/
def mockLastCursor (pages : List (List JVal × String)) : JVal :=
  match pages.getLast? with
  | some p => .str p.2
  | none => .null

/-- A webhook payload with the fields webhook_handler reads. -/
def mkPayload (eventType webhookName runId environmentId projectName
    environmentName jobName runReason : JVal) : JVal :=
  .obj [("eventType", eventType),
        ("webhookName", webhookName),
        ("data", .obj [("runId", runId),
                       ("environmentId", environmentId),
                       ("projectName", projectName),
                       ("environmentName", environmentName),
                       ("jobName", jobName),
                       ("runReason", runReason)])]

/-- Demo configuration with the service token present. -/
def demoEnv : Env := ⟨some "svc-token", none⟩

/-- A model node whose last run is run 55. -/
def demoModelNode : JVal :=
  .obj [("uniqueId", .str "model.demo.a"),
        ("resourceType", .str "Model"),
        ("modelExecutionInfo", .obj [("lastRunId", .num 55),
                                     ("lastRunStatus", .str "success")])]

/-- The edge wrapping demoModelNode. -/
def demoEdge : JVal := .obj [("node", demoModelNode)]

/-- A run-started webhook payload for run 55 of environment 10. -/
def startedPayload : JVal :=
  mkPayload (.str "job.run.started") (.str "wh") (.str "55") (.num 10)
    (.str "proj") (.str "envname") (.str "job") (.str "scheduled")

/-- The handler outcome on startedPayload against a one-page mock whose only
node belongs to run 55. -/
def startedOutcome : HandlerOutcome :=
  webhook_handler demoEnv startedPayload [mkResponse [demoEdge] (pageInfoLast true)]

example : startedOutcome.requests.length = 1 := rfl
example : startedOutcome.batches.length = 1 := rfl
example : startedOutcome.result = .ok successBody := rfl

/-! ## Association-list lemmas -/

theorem assocLookup_none_iff_any_false {α : Type} (fs : List (String × α)) (k : String) :
    assocLookup fs k = none ↔ fs.any (fun p => p.1 == k) = false := by
  induction fs with
  | nil => simp [assocLookup]
  | cons p rest ih =>
    by_cases h : p.1 == k
    · simp [assocLookup, h]
    · simp only [assocLookup, h, if_neg, Bool.false_eq_true, List.any_cons, Bool.or_eq_false_iff]
      simpa [h] using ih

theorem assocLookup_append_some {α : Type} {fs : List (String × α)} {k : String} {v : α}
    (gs : List (String × α)) (h : assocLookup fs k = some v) :
    assocLookup (fs ++ gs) k = some v := by
  induction fs with
  | nil => simp [assocLookup] at h
  | cons p rest ih =>
    by_cases hp : p.1 == k
    · simpa [assocLookup, hp] using by simpa [assocLookup, hp] using h
    · simp only [assocLookup, hp, if_neg, List.cons_append, Bool.false_eq_true] at h ⊢
      exact ih h

theorem assocLookup_append_none {α : Type} {fs : List (String × α)} {k : String}
    (gs : List (String × α)) (h : assocLookup fs k = none) :
    assocLookup (fs ++ gs) k = assocLookup gs k := by
  induction fs with
  | nil => simp
  | cons p rest ih =>
    by_cases hp : p.1 == k
    · simp [assocLookup, hp] at h
    · simp only [assocLookup, hp, if_neg, List.cons_append, Bool.false_eq_true] at h ⊢
      exact ih h

theorem assocLookup_mapReplace_self (fs : List (String × JVal)) (k : String) (v : JVal)
    (h : fs.any (fun p => p.1 == k) = true) :
    assocLookup (fs.map (fun p => if p.1 == k then (k, v) else p)) k = some v := by
  induction fs with
  | nil => simp at h
  | cons p rest ih =>
    by_cases hp : p.1 == k
    · simp [assocLookup, hp]
    · simp only [List.any_cons, hp, Bool.false_or] at h
      simp only [List.map_cons, hp, Bool.false_eq_true, if_neg, assocLookup]
      simpa [hp] using ih h

theorem assocLookup_mapReplace_ne (fs : List (String × JVal)) {k1 k2 : String} (v : JVal)
    (h : k1 ≠ k2) :
    assocLookup (fs.map (fun p => if p.1 == k1 then (k1, v) else p)) k2 = assocLookup fs k2 := by
  induction fs with
  | nil => simp
  | cons p rest ih =>
    by_cases hp : p.1 == k1
    · have hp1 : p.1 = k1 := by simpa using hp
      have h12 : (k1 == k2) = false := by simp [h]
      have hpk2 : (p.1 == k2) = false := by simp [hp1, h]
      simp only [List.map_cons, hp, if_pos, assocLookup, h12, hpk2, Bool.false_eq_true, if_neg]
      exact ih
    · simp only [List.map_cons, hp, Bool.false_eq_true, if_neg, if_false, assocLookup]
      by_cases hpk : p.1 == k2
      · simp [hpk]
      · simp only [hpk, Bool.false_eq_true, if_neg, if_false]
        exact ih

theorem assocLookup_dictSet_self (fs : List (String × JVal)) (k : String) (v : JVal) :
    assocLookup (dictSet fs k v) k = some v := by
  unfold dictSet
  by_cases h : fs.any (fun p => p.1 == k) = true
  · rw [if_pos h]
    exact assocLookup_mapReplace_self fs k v h
  · rw [if_neg h]
    have h2 : fs.any (fun p => p.1 == k) = false := by
      revert h; cases fs.any (fun p => p.1 == k) <;> simp
    rw [assocLookup_append_none _ ((assocLookup_none_iff_any_false fs k).mpr h2)]
    simp [assocLookup]

theorem assocLookup_dictSet_ne (fs : List (String × JVal)) {k1 k2 : String} (v : JVal)
    (h : k1 ≠ k2) : assocLookup (dictSet fs k1 v) k2 = assocLookup fs k2 := by
  unfold dictSet
  by_cases ha : fs.any (fun p => p.1 == k1) = true
  · rw [if_pos ha]
    exact assocLookup_mapReplace_ne fs v h
  · rw [if_neg ha]
    by_cases hl : assocLookup fs k2 = none
    · rw [assocLookup_append_none _ hl, hl]
      simp [assocLookup, h]
    · obtain ⟨w, hw⟩ := Option.ne_none_iff_exists'.mp hl
      rw [assocLookup_append_some _ hw, hw]

theorem dictSet_of_absent (fs : List (String × JVal)) (k : String) (v : JVal)
    (h : assocLookup fs k = none) : dictSet fs k v = fs ++ [(k, v)] := by
  unfold dictSet
  rw [if_neg]
  rw [(assocLookup_none_iff_any_false fs k).mp h]
  simp

/-! ## Extraction lemmas -/

/-- The contribution of one edge to a successful extraction: the normalized
node it yields, or none when it is skipped or raises. -/
def extractedNode (run_id : Int) (edge : JVal) : Option JVal :=
  match processEdge run_id edge with
  | .ok (some n) => some n
  | _ => none

theorem get_run_metadata_ok_eq_filterMap {edges : List JVal} {run_id : Int}
    {out : List JVal} (h : get_run_metadata edges run_id = .ok out) :
    out = edges.filterMap (extractedNode run_id) := by
  induction edges generalizing out with
  | nil =>
    simp only [get_run_metadata, Except.ok.injEq] at h
    simp [← h]
  | cons e rest ih =>
    simp only [get_run_metadata] at h
    cases hp : processEdge run_id e with
    | error msg => rw [hp] at h; simp at h
    | ok r =>
      rw [hp] at h
      cases hr : get_run_metadata rest run_id with
      | error msg => rw [hr] at h; simp at h
      | ok rest_nodes =>
        rw [hr] at h
        cases r with
        | some n =>
          simp only [Except.ok.injEq] at h
          rw [← h]
          simp [List.filterMap_cons, extractedNode, hp, ih hr]
        | none =>
          simp only [Except.ok.injEq] at h
          rw [← h]
          simp [List.filterMap_cons, extractedNode, hp, ih hr]

theorem get_execution_info_true {node : JVal} {run_id : Int} {key? : Option String}
    (h : get_execution_info node run_id = .ok (true, key?)) :
    ∃ nfs key sub, node = JVal.obj nfs ∧ key? = some key ∧
      assocLookup nfs key = some (JVal.obj sub) ∧
      pyEqInt ((assocLookup sub "lastRunId").getD JVal.null) run_id = true := by
  cases node with
  | obj nfs =>
    simp only [get_execution_info, dictGetD] at h
    cases hrt : (assocLookup nfs "resourceType").getD (JVal.str "") with
    | str s =>
      rw [hrt] at h
      simp only [pyLower] at h
      by_cases hs : pyLowerStr s = ""
      · rw [if_pos hs] at h
        simp at h
      · rw [if_neg hs] at h
        simp only [dictGet, dictGetD] at h
        cases hsub : (assocLookup nfs (pyLowerStr s ++ "ExecutionInfo")).getD JVal.null with
        | obj sub =>
          rw [hsub] at h
          by_cases ht : truthy (JVal.obj sub) = true
          · rw [if_pos ht] at h
            simp only [Except.ok.injEq, Prod.mk.injEq] at h
            refine ⟨nfs, pyLowerStr s ++ "ExecutionInfo", sub, rfl, h.2.symm, ?_, h.1⟩
            cases hlk : assocLookup nfs (pyLowerStr s ++ "ExecutionInfo") with
            | some w => rw [hlk] at hsub; simp at hsub; rw [hsub]
            | none => rw [hlk] at hsub; simp at hsub
          · rw [if_neg ht] at h
            simp at h
        | null =>
          rw [hsub] at h
          simp [truthy] at h
        | bool b =>
          rw [hsub] at h
          by_cases hb : truthy (JVal.bool b) = true
          · rw [if_pos hb] at h; simp [dictGet, dictGetD] at h
          · rw [if_neg hb] at h; simp at h
        | num m =>
          rw [hsub] at h
          by_cases hb : truthy (JVal.num m) = true
          · rw [if_pos hb] at h; simp [dictGet, dictGetD] at h
          · rw [if_neg hb] at h; simp at h
        | str w =>
          rw [hsub] at h
          by_cases hb : truthy (JVal.str w) = true
          · rw [if_pos hb] at h; simp [dictGet, dictGetD] at h
          · rw [if_neg hb] at h; simp at h
        | arr xs =>
          rw [hsub] at h
          by_cases hb : truthy (JVal.arr xs) = true
          · rw [if_pos hb] at h; simp [dictGet, dictGetD] at h
          · rw [if_neg hb] at h; simp at h
    | null => rw [hrt] at h; simp [pyLower] at h
    | bool b => rw [hrt] at h; simp [pyLower] at h
    | num m => rw [hrt] at h; simp [pyLower] at h
    | arr xs => rw [hrt] at h; simp [pyLower] at h
    | obj gs => rw [hrt] at h; simp [pyLower] at h
  | null => simp [get_execution_info, dictGetD] at h
  | bool b => simp [get_execution_info, dictGetD] at h
  | num m => simp [get_execution_info, dictGetD] at h
  | str s => simp [get_execution_info, dictGetD] at h
  | arr xs => simp [get_execution_info, dictGetD] at h

theorem processEdge_ok_some {run_id : Int} {e n : JVal}
    (h : processEdge run_id e = .ok (some n)) :
    ∃ fs sub, n = JVal.obj fs ∧
      assocLookup fs "executionInfo" = some (JVal.obj sub) ∧
      pyEqInt ((assocLookup sub "lastRunId").getD JVal.null) run_id = true := by
  cases hn : getItem e "node" with
  | error msg => simp [processEdge, hn] at h
  | ok node =>
    cases hge : get_execution_info node run_id with
    | error msg => simp [processEdge, hn, hge] at h
    | ok pr =>
      obtain ⟨in_run, key?⟩ := pr
      cases in_run with
      | false => simp [processEdge, hn, hge] at h
      | true =>
        obtain ⟨nfs, key, sub, hnode, hkey, hlk, hpy⟩ := get_execution_info_true hge
        subst hkey
        subst hnode
        simp only [processEdge, hn, hge, if_pos] at h
        simp only [getItem, hlk, Except.ok.injEq, Option.some.injEq] at h
        refine ⟨dictSet (nfs.filter (fun p => p.1 != key)) "executionInfo" (JVal.obj sub),
            sub, h.symm, ?_, hpy⟩
        exact assocLookup_dictSet_self _ _ _

/-- C2 helper: the property every extracted record satisfies. -/
def recordInRun (run_id : Int) (n : JVal) : Prop :=
  ∃ fs sub, n = JVal.obj fs ∧
    assocLookup fs "executionInfo" = some (JVal.obj sub) ∧
    pyEqInt ((assocLookup sub "lastRunId").getD JVal.null) run_id = true

theorem assocLookup_filter_none {α : Type} (fs : List (String × α)) (k : String)
    (q : String × α → Bool) (h : assocLookup fs k = none) :
    assocLookup (fs.filter q) k = none := by
  induction fs with
  | nil => simp [assocLookup]
  | cons p rest ih =>
    by_cases hp : p.1 == k
    · simp [assocLookup, hp] at h
    · simp only [assocLookup, hp, Bool.false_eq_true, if_neg] at h
      by_cases hq : q p
      · simp [List.filter_cons, hq, assocLookup, hp, ih h]
      · simp [List.filter_cons, hq, ih h]

/-- C2: on every edge list and target run id on which get_run_metadata
returns successfully, the output has at most as many records as there are
input edges, the output is exactly the in-order filterMap of the per-edge
extraction (so the relative order of output records matches the relative
order of the edges they come from), and every output record carries a nested
executionInfo sub-record whose lastRunId equals the target run id under the
Python ==-with-int comparison the source performs. -/
theorem get_run_metadata_spec (edges : List JVal) (run_id : Int) (out : List JVal)
    (h : get_run_metadata edges run_id = .ok out) :
    out.length ≤ edges.length ∧
    out = edges.filterMap (extractedNode run_id) ∧
    ∀ n ∈ out, recordInRun run_id n := by
  have hf := get_run_metadata_ok_eq_filterMap h
  refine ⟨?_, hf, ?_⟩
  · rw [hf]
    exact List.length_filterMap_le _ _
  · intro n hn
    rw [hf] at hn
    obtain ⟨e, _, hev⟩ := List.mem_filterMap.mp hn
    unfold extractedNode at hev
    cases hp : processEdge run_id e with
    | error msg => rw [hp] at hev; simp at hev
    | ok r =>
      rw [hp] at hev
      cases r with
      | none => simp at hev
      | some m =>
        simp only [Option.some.injEq] at hev
        subst hev
        exact processEdge_ok_some hp

/-- A second, non-matching node: a seed last built by run 3. -/
def demoSeedNode : JVal :=
  .obj [("uniqueId", .str "seed.demo.b"),
        ("resourceType", .str "Seed"),
        ("seedExecutionInfo", .obj [("lastRunId", .num 3)])]

/-- Demo edge list: one node of run 55 and one of run 3. -/
def demoEdges : List JVal := [demoEdge, .obj [("node", demoSeedNode)]]

/-- The extraction output on demoEdges for run 55. -/
def demoOut : List JVal :=
  [.obj [("uniqueId", .str "model.demo.a"),
         ("resourceType", .str "Model"),
         ("executionInfo", .obj [("lastRunId", .num 55),
                                 ("lastRunStatus", .str "success")])]]

/-- Witness for C2 at a concrete two-edge input. -/
theorem get_run_metadata_spec_witness :
    demoOut.length ≤ demoEdges.length ∧
    demoOut = demoEdges.filterMap (extractedNode 55) ∧
    ∀ n ∈ demoOut, recordInRun 55 n :=
  get_run_metadata_spec demoEdges 55 demoOut rfl

/-- C5: an edge whose node has no resourceType field, or an empty-string
resourceType, is skipped by the per-edge extraction, and deleting such an
edge anywhere in the edge list leaves the result of get_run_metadata
unchanged: the node is never included in the extraction output. -/
theorem empty_resource_type_never_extracted (run_id : Int)
    (efs nfs : List (String × JVal))
    (hnode : assocLookup efs "node" = some (JVal.obj nfs))
    (hrt : assocLookup nfs "resourceType" = none ∨
           assocLookup nfs "resourceType" = some (JVal.str "")) :
    processEdge run_id (JVal.obj efs) = .ok none ∧
    ∀ pre post : List JVal,
      get_run_metadata (pre ++ JVal.obj efs :: post) run_id =
      get_run_metadata (pre ++ post) run_id := by
  have hge : get_execution_info (JVal.obj nfs) run_id = .ok (false, none) := by
    rcases hrt with h1 | h1 <;>
      simp [get_execution_info, dictGetD, h1, pyLower, pyLowerStr]
  have hpe : processEdge run_id (JVal.obj efs) = .ok none := by
    simp [processEdge, getItem, hnode, hge]
  refine ⟨hpe, ?_⟩
  intro pre post
  induction pre with
  | nil =>
    simp only [List.nil_append, get_run_metadata, hpe]
    cases hq : get_run_metadata post run_id <;> simp
  | cons p pre1 ih =>
    simp only [List.cons_append, get_run_metadata, List.append_eq, ih]

/-- Witness for C5: a node with no resourceType field at all. -/
theorem empty_resource_type_never_extracted_witness :
    processEdge 7 (JVal.obj [("node", JVal.obj [("uniqueId", JVal.str "x")])]) = .ok none ∧
    ∀ pre post : List JVal,
      get_run_metadata (pre ++ JVal.obj [("node", JVal.obj [("uniqueId", JVal.str "x")])] :: post) 7 =
      get_run_metadata (pre ++ post) 7 :=
  empty_resource_type_never_extracted 7 _ _ rfl (Or.inl rfl)

/-- C9: get_run_metadata is not total.  A node whose resourceType key holds
a non-string value makes it raise (the source calls .lower() on the value)
rather than skip the node, and an edge without a "node" key makes it raise a
KeyError; the skip behavior of C5 only applies when resourceType, if
present, is a string. -/
theorem get_run_metadata_not_total :
    (∀ (run_id : Int) (nfs : List (String × JVal)) (v : JVal),
        assocLookup nfs "resourceType" = some v → v.isStr = false →
        exceptIsOk (get_run_metadata [JVal.obj [("node", JVal.obj nfs)]] run_id) = false) ∧
    (∀ (run_id : Int) (efs : List (String × JVal)),
        assocLookup efs "node" = none →
        exceptIsOk (get_run_metadata [JVal.obj efs] run_id) = false) := by
  constructor
  · intro run_id nfs v hv hns
    have hpl : pyLower v = .error "AttributeError: value has no attribute lower" := by
      cases v <;> simp_all [pyLower, JVal.isStr]
    have hge : get_execution_info (JVal.obj nfs) run_id =
        .error "AttributeError: value has no attribute lower" := by
      simp [get_execution_info, dictGetD, hv, hpl]
    have hpe : processEdge run_id (JVal.obj [("node", JVal.obj nfs)]) =
        .error "AttributeError: value has no attribute lower" := by
      simp [processEdge, getItem, assocLookup, hge]
    simp [get_run_metadata, hpe, exceptIsOk]
  · intro run_id efs hn
    have hpe : processEdge run_id (JVal.obj efs) = .error ("KeyError: " ++ "node") := by
      simp [processEdge, getItem, hn]
    simp [get_run_metadata, hpe, exceptIsOk]

/-- Witness for C9: a null resourceType raises; a node-less edge raises. -/
theorem get_run_metadata_not_total_witness :
    exceptIsOk (get_run_metadata [JVal.obj [("node",
      JVal.obj [("resourceType", JVal.null)])]] 7) = false ∧
    exceptIsOk (get_run_metadata [JVal.obj []] 7) = false :=
  ⟨get_run_metadata_not_total.1 7 [("resourceType", JVal.null)] JVal.null rfl rfl,
   get_run_metadata_not_total.2 7 [] rfl⟩

/-! ## C6: normalization shape -/

/-- A matching model node that already carries a top-level executionInfo
field. -/
def c6Node : JVal :=
  .obj [("executionInfo", .str "preexisting"),
        ("modelExecutionInfo", .obj [("lastRunId", .num 7)]),
        ("resourceType", .str "Model")]

/-- The edge wrapping c6Node. -/
def c6Edge : JVal := .obj [("node", c6Node)]

/-- What extraction actually produces for c6Edge and run 7. -/
def c6Out : JVal :=
  .obj [("executionInfo", .obj [("lastRunId", .num 7)]),
        ("resourceType", .str "Model")]

/-- C6 counterexample: on a matching node that already has an executionInfo
field, the dict literal of get_run_metadata does not add a new key; it
overwrites the preexisting executionInfo field in place (its value changes
from the string "preexisting" to the execution-info sub-record, as the isStr
discriminations show), so the claim that no field other than the removed
type-specific key is altered fails at this input. -/
theorem normalization_overwrites_preexisting_key :
    get_run_metadata [c6Edge] 7 = .ok [c6Out] ∧
    getItem c6Node "executionInfo" = .ok (.str "preexisting") ∧
    getItem c6Out "executionInfo" = .ok (.obj [("lastRunId", .num 7)]) ∧
    (JVal.str "preexisting").isStr = true ∧
    (JVal.obj [("lastRunId", JVal.num 7)]).isStr = false :=
  ⟨rfl, rfl, rfl, rfl, rfl⟩

/-- C6 amended: for a matching node (get_execution_info returned in_run with
its type-specific key) that does not already carry a top-level executionInfo
field, the normalized record keeps every original field except the
type-specific execution-info key, in order and unaltered, and appends
exactly one new key executionInfo holding the value of the removed
sub-record. -/
theorem normalized_record_shape (run_id : Int) (efs nfs : List (String × JVal))
    (key : String) (info : JVal)
    (hnode : assocLookup efs "node" = some (JVal.obj nfs))
    (hexec : get_execution_info (JVal.obj nfs) run_id = .ok (true, some key))
    (hinfo : assocLookup nfs key = some info)
    (hpre : assocLookup nfs "executionInfo" = none) :
    processEdge run_id (JVal.obj efs) =
      .ok (some (JVal.obj ((nfs.filter (fun p => p.1 != key)) ++
        [("executionInfo", info)]))) := by
  have hset : dictSet (nfs.filter (fun p => p.1 != key)) "executionInfo" info =
      (nfs.filter (fun p => p.1 != key)) ++ [("executionInfo", info)] :=
    dictSet_of_absent _ _ _ (assocLookup_filter_none nfs _ _ hpre)
  simp only [processEdge, getItem, hnode, hexec, if_pos, hinfo, hset]

/-- Witness for the amended C6 at the demo model node. -/
theorem normalized_record_shape_witness :
    processEdge 55 demoEdge =
      .ok (some (JVal.obj (((
        [("uniqueId", JVal.str "model.demo.a"),
         ("resourceType", JVal.str "Model"),
         ("modelExecutionInfo", JVal.obj [("lastRunId", JVal.num 55),
                                          ("lastRunStatus", JVal.str "success")])]
        : List (String × JVal)).filter (fun p => p.1 != "modelExecutionInfo")) ++
        [("executionInfo", JVal.obj [("lastRunId", JVal.num 55),
                                     ("lastRunStatus", JVal.str "success")])]))) :=
  normalized_record_shape 55 _ _ "modelExecutionInfo" _ rfl rfl rfl rfl

/-! ## Chunker lemmas -/

theorem chunks_arith (n : Nat) (h : 1 ≤ n) :
    (n + 1000 - 1) / 1000 = ((n - 1000) + 1000 - 1) / 1000 + 1 := by
  rcases le_or_lt n 1000 with hle | hlt
  · have h1 : n + 1000 - 1 = (n - 1) + 1000 := by omega
    have h2 : n - 1000 = 0 := by omega
    rw [h1, Nat.add_div_right _ (by norm_num), Nat.div_eq_of_lt (by omega), h2]
  · have h1 : n + 1000 - 1 = ((n - 1000) + 1000 - 1) + 1000 := by omega
    rw [h1, Nat.add_div_right _ (by norm_num)]

theorem range'_shift_map {β : Type} (m : Nat) (f : Nat → β) :
    (List.range' 1000 m 1000).map f =
    (List.range' 0 m 1000).map (fun pos => f (1000 + pos)) := by
  have h : List.range' 1000 m 1000 = (List.range' 0 m 1000).map (1000 + ·) := by
    have h0 := List.map_add_range' 1000 0 m 1000
    simpa using h0.symm
  rw [h, List.map_map]
  rfl

theorem chunker_cons {α : Type} (seq : List α) (h : seq ≠ []) :
    chunker seq = seq.take 1000 :: chunker (seq.drop 1000) := by
  have hlen : 1 ≤ seq.length := List.length_pos.mpr h
  simp only [chunker, DATADOG_MAX_LIST_SIZE, List.length_drop]
  rw [chunks_arith seq.length hlen, List.range'_succ]
  simp only [List.map_cons, List.drop_zero, Nat.zero_add]
  congr 1
  rw [range'_shift_map]
  apply List.map_congr_left
  intro pos _
  rw [List.drop_drop]

theorem chunker_length {α : Type} (seq : List α) :
    (chunker seq).length = (seq.length + 1000 - 1) / 1000 := by
  simp [chunker, DATADOG_MAX_LIST_SIZE, List.length_range']

theorem chunker_eq_nil_iff {α : Type} (seq : List α) : chunker seq = [] ↔ seq = [] := by
  constructor
  · intro h
    by_contra hne
    have hlen : 0 < seq.length := List.length_pos.mpr hne
    have h1 : 1 ≤ (seq.length + 1000 - 1) / 1000 :=
      (Nat.one_le_div_iff (by norm_num)).mpr (by omega)
    have h0 : (seq.length + 1000 - 1) / 1000 = 0 := by
      rw [← chunker_length seq, h]
      rfl
    omega
  · intro h
    subst h
    simp [chunker, DATADOG_MAX_LIST_SIZE, List.range']

theorem chunker_nil {α : Type} : chunker ([] : List α) = [] :=
  (chunker_eq_nil_iff []).mpr rfl

theorem chunker_join {α : Type} (seq : List α) : (chunker seq).flatten = seq := by
  suffices h : ∀ n (seq : List α), seq.length = n → (chunker seq).flatten = seq from
    h seq.length seq rfl
  intro n
  induction n using Nat.strong_induction_on with
  | _ n ih =>
    intro seq hn
    by_cases hseq : seq = []
    · subst hseq
      rw [chunker_nil]
      rfl
    · rw [chunker_cons seq hseq]
      have hlen : 1 ≤ seq.length := List.length_pos.mpr hseq
      have hlt : (seq.drop 1000).length < n := by
        rw [List.length_drop]
        omega
      rw [List.flatten_cons, ih _ hlt (seq.drop 1000) rfl, List.take_append_drop]

theorem chunker_mem_size {α : Type} (seq : List α) :
    ∀ b ∈ chunker seq, 0 < b.length ∧ b.length ≤ 1000 := by
  suffices h : ∀ n (seq : List α), seq.length = n →
      ∀ b ∈ chunker seq, 0 < b.length ∧ b.length ≤ 1000 from h seq.length seq rfl
  intro n
  induction n using Nat.strong_induction_on with
  | _ n ih =>
    intro seq hn
    by_cases hseq : seq = []
    · subst hseq
      intro b hb
      rw [chunker_nil] at hb
      simp at hb
    · rw [chunker_cons seq hseq]
      have hlen : 1 ≤ seq.length := List.length_pos.mpr hseq
      have hlt : (seq.drop 1000).length < n := by
        rw [List.length_drop]
        omega
      intro b hb
      rcases List.mem_cons.mp hb with hb1 | hb2
      · subst hb1
        rw [List.length_take]
        omega
      · exact ih _ hlt (seq.drop 1000) rfl b hb2

theorem chunker_dropLast_size {α : Type} (seq : List α) :
    ∀ b ∈ (chunker seq).dropLast, b.length = 1000 := by
  suffices h : ∀ n (seq : List α), seq.length = n →
      ∀ b ∈ (chunker seq).dropLast, b.length = 1000 from h seq.length seq rfl
  intro n
  induction n using Nat.strong_induction_on with
  | _ n ih =>
    intro seq hn
    by_cases hseq : seq = []
    · subst hseq
      intro b hb
      rw [chunker_nil] at hb
      simp at hb
    · rw [chunker_cons seq hseq]
      have hlen : 1 ≤ seq.length := List.length_pos.mpr hseq
      have hlt : (seq.drop 1000).length < n := by
        rw [List.length_drop]
        omega
      cases hrest : chunker (seq.drop 1000) with
      | nil =>
        intro b hb
        simp at hb
      | cons r rs =>
        have hdrop : seq.drop 1000 ≠ [] := by
          intro hd
          rw [hd, chunker_nil] at hrest
          exact List.noConfusion hrest
        have hbig : 1000 < seq.length := by
          have hp := List.length_pos.mpr hdrop
          rw [List.length_drop] at hp
          omega
        rw [List.dropLast_cons_of_ne_nil (by simp)]
        intro b hb
        rcases List.mem_cons.mp hb with hb1 | hb2
        · subst hb1
          rw [List.length_take]
          omega
        · rw [← hrest] at hb2
          exact ih _ hlt (seq.drop 1000) rfl b hb2

/-- C4: the chunker splits a sequence of N log items into exactly
ceil(N / 1000) batches, written (N + 1000 - 1) / 1000 over the natural
numbers; joining the batches in order reproduces the sequence exactly (so
the batches are contiguous, non-overlapping and in order); every batch but
the last has exactly DATADOG_MAX_LIST_SIZE = 1000 items; every batch is
nonempty and has at most 1000 items; and an empty sequence yields no
batches. -/
theorem chunker_spec {α : Type} (seq : List α) :
    (chunker seq).length =
      (seq.length + DATADOG_MAX_LIST_SIZE - 1) / DATADOG_MAX_LIST_SIZE ∧
    (chunker seq).flatten = seq ∧
    (∀ b ∈ (chunker seq).dropLast, b.length = DATADOG_MAX_LIST_SIZE) ∧
    (∀ b ∈ chunker seq, 0 < b.length ∧ b.length ≤ DATADOG_MAX_LIST_SIZE) ∧
    (seq = [] → chunker seq = []) :=
  ⟨chunker_length seq, chunker_join seq, chunker_dropLast_size seq,
   chunker_mem_size seq, fun h => (chunker_eq_nil_iff seq).mpr h⟩

/-- Witness for C4 at a concrete three-element sequence. -/
theorem chunker_spec_witness :
    (chunker [0, 1, 2]).length =
      (([0, 1, 2] : List Nat).length + DATADOG_MAX_LIST_SIZE - 1) / DATADOG_MAX_LIST_SIZE ∧
    (chunker [0, 1, 2]).flatten = [0, 1, 2] ∧
    (∀ b ∈ (chunker [0, 1, 2]).dropLast, b.length = DATADOG_MAX_LIST_SIZE) ∧
    (∀ b ∈ chunker [0, 1, 2], 0 < b.length ∧ b.length ≤ DATADOG_MAX_LIST_SIZE) ∧
    (([0, 1, 2] : List Nat) = [] → chunker [0, 1, 2] = []) :=
  chunker_spec [0, 1, 2]

/-! ## Pagination loop lemmas -/

theorem page_step_next (edges : List JVal) (s : String) :
    page_step (mkResponse edges (pageInfoNext s)) = .ok (.str s, edges) := rfl

theorem page_step_last (edges : List JVal) (flag : Bool) :
    page_step (mkResponse edges (pageInfoLast flag)) = .ok (.null, edges) := by
  cases flag <;> rfl

theorem page_step_http_error (r : HttpResponse) (h : 400 ≤ r.status ∧ r.status < 600) :
    page_step r = .error ("HTTPError: " ++ toString r.status) := by
  simp [page_step, raise_for_status, h]

theorem truthy_str_of_ne {s : String} (h : s ≠ "") : truthy (.str s) = true := by
  simp [truthy, h]

theorem run_query_go_step (c : DiscoveryApiClient) (limit : Int) (edges : List JVal)
    (s : String) (rest : List HttpResponse) (cursor : JVal)
    (vars : List (String × JVal)) (acc : List JVal) (reqs : List ApiRequest)
    (hs : s ≠ "") :
    run_query_go c limit (mkResponse edges (pageInfoNext s) :: rest) cursor vars acc reqs =
      run_query_go c limit rest (.str s) (update_variables c limit cursor vars)
        (acc ++ edges)
        (reqs ++ [⟨mkHeaders c, update_variables c limit cursor vars⟩]) := by
  simp only [run_query_go, page_step_next]
  rw [if_pos (truthy_str_of_ne hs)]

theorem run_query_go_last (c : DiscoveryApiClient) (limit : Int) (edges : List JVal)
    (flag : Bool) (cursor : JVal) (vars : List (String × JVal)) (acc : List JVal)
    (reqs : List ApiRequest) :
    run_query_go c limit [mkResponse edges (pageInfoLast flag)] cursor vars acc reqs =
      ⟨.ok (acc ++ edges),
       reqs ++ [⟨mkHeaders c, update_variables c limit cursor vars⟩],
       update_variables c limit cursor vars⟩ := by
  simp only [run_query_go, page_step_last]
  rw [if_neg]
  simp [truthy]

theorem run_query_go_bad (c : DiscoveryApiClient) (limit : Int) (r : HttpResponse)
    (rest : List HttpResponse) (cursor : JVal) (vars : List (String × JVal))
    (acc : List JVal) (reqs : List ApiRequest) (h : 400 ≤ r.status ∧ r.status < 600) :
    run_query_go c limit (r :: rest) cursor vars acc reqs =
      ⟨.error ("HTTPError: " ++ toString r.status),
       reqs ++ [⟨mkHeaders c, update_variables c limit cursor vars⟩],
       update_variables c limit cursor vars⟩ := by
  simp only [run_query_go, page_step_http_error r h]

theorem run_query_go_mock_result (c : DiscoveryApiClient) (limit : Int) :
    ∀ (pages : List (List JVal × String)), (∀ p ∈ pages, p.2 ≠ "") →
    ∀ (lastEdges : List JVal) (flag : Bool) (cursor : JVal)
      (vars : List (String × JVal)) (acc : List JVal) (reqs : List ApiRequest),
    (run_query_go c limit
        (mkContinuing pages ++ [mkResponse lastEdges (pageInfoLast flag)])
        cursor vars acc reqs).result =
      .ok (acc ++ ((pages.map Prod.fst).flatten ++ lastEdges)) ∧
    (run_query_go c limit
        (mkContinuing pages ++ [mkResponse lastEdges (pageInfoLast flag)])
        cursor vars acc reqs).requests.length = reqs.length + (pages.length + 1) := by
  intro pages
  induction pages with
  | nil =>
    intro _ lastEdges flag cursor vars acc reqs
    simp [mkContinuing, run_query_go_last]
  | cons p rest ih =>
    intro hp lastEdges flag cursor vars acc reqs
    obtain ⟨e, s⟩ := p
    have hs : s ≠ "" := hp (e, s) (List.mem_cons_self _ _)
    simp only [mkContinuing, List.map_cons, List.cons_append]
    rw [run_query_go_step c limit e s _ cursor vars acc reqs hs]
    have hih := ih (fun q hq => hp q (List.mem_cons_of_mem _ hq)) lastEdges flag
      (.str s) (update_variables c limit cursor vars) (acc ++ e)
      (reqs ++ [⟨mkHeaders c, update_variables c limit cursor vars⟩])
    constructor
    · rw [show mkContinuing rest = rest.map (fun p => mkResponse p.1 (pageInfoNext p.2))
        from rfl] at hih
      rw [hih.1]
      simp [List.append_assoc]
    · rw [show mkContinuing rest = rest.map (fun p => mkResponse p.1 (pageInfoNext p.2))
        from rfl] at hih
      rw [hih.2]
      simp
      omega

theorem run_query_go_mock_bad (c : DiscoveryApiClient) (limit : Int) :
    ∀ (pages : List (List JVal × String)), (∀ p ∈ pages, p.2 ≠ "") →
    ∀ (bad : HttpResponse), 400 ≤ bad.status ∧ bad.status < 600 →
    ∀ (rest : List HttpResponse) (cursor : JVal) (vars : List (String × JVal))
      (acc : List JVal) (reqs : List ApiRequest),
    (run_query_go c limit (mkContinuing pages ++ bad :: rest)
        cursor vars acc reqs).result = .error ("HTTPError: " ++ toString bad.status) ∧
    (run_query_go c limit (mkContinuing pages ++ bad :: rest)
        cursor vars acc reqs).requests.length = reqs.length + (pages.length + 1) := by
  intro pages
  induction pages with
  | nil =>
    intro _ bad hbad rest cursor vars acc reqs
    simp [mkContinuing, run_query_go_bad c limit bad rest cursor vars acc reqs hbad]
  | cons p ps ih =>
    intro hp bad hbad rest cursor vars acc reqs
    obtain ⟨e, s⟩ := p
    have hs : s ≠ "" := hp (e, s) (List.mem_cons_self _ _)
    simp only [mkContinuing, List.map_cons, List.cons_append]
    rw [run_query_go_step c limit e s _ cursor vars acc reqs hs]
    have hih := ih (fun q hq => hp q (List.mem_cons_of_mem _ hq)) bad hbad rest
      (.str s) (update_variables c limit cursor vars) (acc ++ e)
      (reqs ++ [⟨mkHeaders c, update_variables c limit cursor vars⟩])
    rw [show mkContinuing ps = ps.map (fun p => mkResponse p.1 (pageInfoNext p.2))
      from rfl] at hih
    refine ⟨hih.1, ?_⟩
    rw [hih.2]
    simp
    omega

theorem lookup_update_variables (c : DiscoveryApiClient) (limit : Int) (cursor : JVal)
    (vars : List (String × JVal)) :
    assocLookup (update_variables c limit cursor vars) "environmentId" =
      some c.environment_id ∧
    assocLookup (update_variables c limit cursor vars) "limit" = some (.num limit) ∧
    assocLookup (update_variables c limit cursor vars) "after" = some cursor ∧
    assocLookup (update_variables c limit cursor vars) "first" = some (.num limit) := by
  unfold update_variables
  refine ⟨?_, ?_, ?_, ?_⟩
  · rw [assocLookup_dictSet_ne _ _ (by decide), assocLookup_dictSet_ne _ _ (by decide),
      assocLookup_dictSet_ne _ _ (by decide), assocLookup_dictSet_self]
  · rw [assocLookup_dictSet_ne _ _ (by decide), assocLookup_dictSet_ne _ _ (by decide),
      assocLookup_dictSet_self]
  · rw [assocLookup_dictSet_ne _ _ (by decide), assocLookup_dictSet_self]
  · rw [assocLookup_dictSet_self]

theorem run_query_go_mock_vars (c : DiscoveryApiClient) (limit : Int) :
    ∀ (pages : List (List JVal × String)), (∀ p ∈ pages, p.2 ≠ "") →
    ∀ (lastEdges : List JVal) (flag : Bool) (cursor : JVal)
      (vars : List (String × JVal)) (acc : List JVal) (reqs : List ApiRequest),
    assocLookup (run_query_go c limit
        (mkContinuing pages ++ [mkResponse lastEdges (pageInfoLast flag)])
        cursor vars acc reqs).vars "environmentId" = some c.environment_id ∧
    assocLookup (run_query_go c limit
        (mkContinuing pages ++ [mkResponse lastEdges (pageInfoLast flag)])
        cursor vars acc reqs).vars "limit" = some (.num limit) ∧
    assocLookup (run_query_go c limit
        (mkContinuing pages ++ [mkResponse lastEdges (pageInfoLast flag)])
        cursor vars acc reqs).vars "first" = some (.num limit) ∧
    assocLookup (run_query_go c limit
        (mkContinuing pages ++ [mkResponse lastEdges (pageInfoLast flag)])
        cursor vars acc reqs).vars "after" =
      some (match pages.getLast? with
            | some p => JVal.str p.2
            | none => cursor) := by
  intro pages
  induction pages with
  | nil =>
    intro _ lastEdges flag cursor vars acc reqs
    simp only [mkContinuing, List.map_nil, List.nil_append,
      run_query_go_last c limit lastEdges flag cursor vars acc reqs, List.getLast?_nil]
    obtain ⟨h1, h2, h3, h4⟩ := lookup_update_variables c limit cursor vars
    exact ⟨h1, h2, h4, h3⟩
  | cons p ps ih =>
    intro hp lastEdges flag cursor vars acc reqs
    obtain ⟨e, s⟩ := p
    have hs : s ≠ "" := hp (e, s) (List.mem_cons_self _ _)
    simp only [mkContinuing, List.map_cons, List.cons_append]
    rw [run_query_go_step c limit e s _ cursor vars acc reqs hs]
    have hih := ih (fun q hq => hp q (List.mem_cons_of_mem _ hq)) lastEdges flag
      (.str s) (update_variables c limit cursor vars) (acc ++ e)
      (reqs ++ [⟨mkHeaders c, update_variables c limit cursor vars⟩])
    rw [show mkContinuing ps = ps.map (fun p => mkResponse p.1 (pageInfoNext p.2))
      from rfl] at hih
    refine ⟨hih.1, hih.2.1, hih.2.2.1, ?_⟩
    rw [hih.2.2.2]
    cases ps with
    | nil => rfl
    | cons q qs =>
      rw [List.getLast?_cons_cons]
      obtain ⟨x, hx⟩ : ∃ x, (q :: qs).getLast? = some x := by
        cases hq : (q :: qs).getLast? with
        | some y => exact ⟨y, rfl⟩
        | none => simp at hq
      rw [hx]

theorem run_query_go_requests_pred (c : DiscoveryApiClient) (limit : Int)
    (P : ApiRequest → Prop)
    (hP : ∀ cursor vars, P ⟨mkHeaders c, update_variables c limit cursor vars⟩) :
    ∀ (responses : List HttpResponse) (cursor : JVal) (vars : List (String × JVal))
      (acc : List JVal) (reqs : List ApiRequest), (∀ r ∈ reqs, P r) →
    ∀ r ∈ (run_query_go c limit responses cursor vars acc reqs).requests, P r := by
  intro responses
  induction responses with
  | nil =>
    intro cursor vars acc reqs hreqs r hr
    exact hreqs r hr
  | cons resp rest ih =>
    intro cursor vars acc reqs hreqs r hr
    have hreqs1 : ∀ x ∈ reqs ++ [(⟨mkHeaders c, update_variables c limit cursor vars⟩
        : ApiRequest)], P x := by
      intro x hx
      rcases List.mem_append.mp hx with h1 | h2
      · exact hreqs x h1
      · rw [List.mem_singleton.mp h2]
        exact hP cursor vars
    revert hr
    cases hps : page_step resp with
    | error e =>
      simp only [run_query_go, hps]
      intro hr
      exact hreqs1 r hr
    | ok pr =>
      obtain ⟨cursor1, results⟩ := pr
      simp only [run_query_go, hps]
      cases ht : truthy cursor1 with
      | true =>
        intro hr
        exact ih cursor1 _ _ _ hreqs1 r hr
      | false =>
        intro hr
        exact hreqs1 r hr

/-! ## Claim theorems for the query client and the orchestrator -/

/-- C3: for every k = pages.length + 1 ≥ 1, against a mock API that answers
hasNextPage = true with a nonempty cursor for the first k - 1 requests and
hasNextPage false-or-absent on the k-th, run_query terminates (it is a total
function of the response list), issues exactly k sequential requests (the
loop consumes one response per iteration, each after-cursor coming from the
previous response), and returns all k pages of edges concatenated in
page-then-within-page order, with nothing dropped or repeated. -/
theorem run_query_pagination_spec (c : DiscoveryApiClient)
    (vars0 : Option (List (String × JVal))) (limit : Int)
    (pages : List (List JVal × String)) (hcur : ∀ p ∈ pages, p.2 ≠ "")
    (lastEdges : List JVal) (flag : Bool) :
    (c.run_query vars0 limit (mockResponses pages lastEdges flag)).result =
      .ok ((pages.map Prod.fst).flatten ++ lastEdges) ∧
    (c.run_query vars0 limit (mockResponses pages lastEdges flag)).requests.length =
      pages.length + 1 := by
  have h := run_query_go_mock_result c limit pages hcur lastEdges flag .null
    (vars0.getD []) [] []
  unfold DiscoveryApiClient.run_query mockResponses
  constructor
  · rw [h.1]
    simp
  · rw [h.2]
    simp

/-- A client as built with the demo configuration for environment 10. -/
def demoClient : DiscoveryApiClient := ⟨.num 10, "svc-token", DEFAULT_URL⟩

/-- One continuing mock page. -/
def c3Pages : List (List JVal × String) := [([demoEdge], "cursor-1")]

/-- The final mock page. -/
def c3Last : List JVal := [JVal.obj [("node", demoSeedNode)]]

/-- Witness for C3: two pages, two requests, edges concatenated in order. -/
theorem run_query_pagination_spec_witness :
    (demoClient.run_query none 500 (mockResponses c3Pages c3Last true)).result =
      .ok ((c3Pages.map Prod.fst).flatten ++ c3Last) ∧
    (demoClient.run_query none 500 (mockResponses c3Pages c3Last true)).requests.length =
      c3Pages.length + 1 :=
  run_query_pagination_spec demoClient none 500 c3Pages (by decide) c3Last true

/-- C10: run_query writes the keys environmentId, limit, after and first
into the caller-supplied variables mapping on every page request
(overwriting whatever the caller stored there, since the conclusion holds
for every initial mapping), and after it returns the mapping holds the
values of the last page request: the shared environment id and page size,
and the cursor used by the final request.  The in-place mutation of the
Python dict is modelled by threading the mapping through the loop and
returning its final state. -/
theorem run_query_mutates_variables (c : DiscoveryApiClient)
    (vars0 : List (String × JVal)) (limit : Int)
    (pages : List (List JVal × String)) (hcur : ∀ p ∈ pages, p.2 ≠ "")
    (lastEdges : List JVal) (flag : Bool) :
    assocLookup (c.run_query (some vars0) limit
        (mockResponses pages lastEdges flag)).vars "environmentId" =
      some c.environment_id ∧
    assocLookup (c.run_query (some vars0) limit
        (mockResponses pages lastEdges flag)).vars "limit" = some (.num limit) ∧
    assocLookup (c.run_query (some vars0) limit
        (mockResponses pages lastEdges flag)).vars "first" = some (.num limit) ∧
    assocLookup (c.run_query (some vars0) limit
        (mockResponses pages lastEdges flag)).vars "after" =
      some (mockLastCursor pages) ∧
    (∀ req ∈ (c.run_query (some vars0) limit
        (mockResponses pages lastEdges flag)).requests,
      assocLookup req.vars "environmentId" = some c.environment_id ∧
      assocLookup req.vars "limit" = some (.num limit) ∧
      assocLookup req.vars "first" = some (.num limit)) := by
  have h := run_query_go_mock_vars c limit pages hcur lastEdges flag .null vars0 [] []
  refine ⟨h.1, h.2.1, h.2.2.1, ?_, ?_⟩
  · show assocLookup (run_query_go c limit
        (mkContinuing pages ++ [mkResponse lastEdges (pageInfoLast flag)])
        .null vars0 [] []).vars "after" = some (mockLastCursor pages)
    rw [h.2.2.2]
    rfl
  · intro req hreq
    refine run_query_go_requests_pred c limit
      (fun r => assocLookup r.vars "environmentId" = some c.environment_id ∧
        assocLookup r.vars "limit" = some (.num limit) ∧
        assocLookup r.vars "first" = some (.num limit))
      (fun cursor vars => ?_) _ .null vars0 [] [] (by simp) req hreq
    obtain ⟨h1, h2, _, h4⟩ := lookup_update_variables c limit cursor vars
    exact ⟨h1, h2, h4⟩

/-- Witness for C10 at the two-page mock with a caller-provided
environmentId entry that gets overwritten. -/
theorem run_query_mutates_variables_witness :
    assocLookup (demoClient.run_query (some [("environmentId", JVal.str "caller")]) 500
        (mockResponses c3Pages c3Last true)).vars "environmentId" =
      some demoClient.environment_id ∧
    assocLookup (demoClient.run_query (some [("environmentId", JVal.str "caller")]) 500
        (mockResponses c3Pages c3Last true)).vars "limit" = some (.num 500) ∧
    assocLookup (demoClient.run_query (some [("environmentId", JVal.str "caller")]) 500
        (mockResponses c3Pages c3Last true)).vars "first" = some (.num 500) ∧
    assocLookup (demoClient.run_query (some [("environmentId", JVal.str "caller")]) 500
        (mockResponses c3Pages c3Last true)).vars "after" =
      some (mockLastCursor c3Pages) ∧
    (∀ req ∈ (demoClient.run_query (some [("environmentId", JVal.str "caller")]) 500
        (mockResponses c3Pages c3Last true)).requests,
      assocLookup req.vars "environmentId" = some demoClient.environment_id ∧
      assocLookup req.vars "limit" = some (.num 500) ∧
      assocLookup req.vars "first" = some (.num 500)) :=
  run_query_mutates_variables demoClient [("environmentId", JVal.str "caller")] 500
    c3Pages (by decide) c3Last true

/-- With the service token configured, webhook_handler on a well-formed
payload reduces (for any event type, because the enum comparison is
constantly unequal) to the fetch-extract-batch-dispatch tail with the client
built from the configuration. -/
theorem webhook_handler_reduces (t : String) (u : Option String)
    (eventType webhookName runId environmentId projectName environmentName
      jobName runReason : JVal) (responses : List HttpResponse) :
    webhook_handler ⟨some t, u⟩
      (mkPayload eventType webhookName runId environmentId projectName
        environmentName jobName runReason) responses =
    handlerDispatch ⟨environmentId, t, u.getD DEFAULT_URL⟩
      [("project_name", projectName), ("environment_name", environmentName),
       ("job_name", jobName), ("run_id", runId), ("webhook_name", webhookName),
       ("run_reason", runReason)]
      (JVal.obj [("runId", runId), ("environmentId", environmentId),
                 ("projectName", projectName), ("environmentName", environmentName),
                 ("jobName", jobName), ("runReason", runReason)])
      ((⟨environmentId, t, u.getD DEFAULT_URL⟩ : DiscoveryApiClient).run_query
        (some queryVariables) 500 responses) := rfl

/-- C8: when DBT_CLOUD_SERVICE_TOKEN is absent from configuration,
constructing the query client raises the configuration ValueError, and a
webhook invocation that reaches client construction fails with that error
having issued no metadata request at all; conversely, whenever the client
was constructed (the token present), every request run_query sends carries
the header Authorization: Bearer followed by that token. -/
theorem service_token_required_and_bearer (env : Env) (environment_id : JVal) :
    (env.DBT_CLOUD_SERVICE_TOKEN = none →
      clientInit env environment_id = .error "DBT_CLOUD_SERVICE_TOKEN is not set" ∧
      ∀ (eventType webhookName runId projectName environmentName jobName
          runReason : JVal) (responses : List HttpResponse),
        (webhook_handler env (mkPayload eventType webhookName runId environment_id
            projectName environmentName jobName runReason) responses).result =
          .error "DBT_CLOUD_SERVICE_TOKEN is not set" ∧
        (webhook_handler env (mkPayload eventType webhookName runId environment_id
            projectName environmentName jobName runReason) responses).requests = []) ∧
    (∀ c, clientInit env environment_id = .ok c →
      ∀ (vars0 : Option (List (String × JVal))) (limit : Int)
        (responses : List HttpResponse),
      ∀ req ∈ (c.run_query vars0 limit responses).requests,
        assocLookup req.headers "Authorization" = some ("Bearer " ++ c.token)) := by
  constructor
  · intro hnone
    constructor
    · simp [clientInit, hnone]
    · intro eventType webhookName runId projectName environmentName jobName
        runReason responses
      have hh : webhook_handler env (mkPayload eventType webhookName runId
          environment_id projectName environmentName jobName runReason) responses =
          errOutcome "DBT_CLOUD_SERVICE_TOKEN is not set" := by
        obtain ⟨tok, url⟩ := env
        simp only [Env.DBT_CLOUD_SERVICE_TOKEN] at hnone
        subst hnone
        rfl
      rw [hh]
      exact ⟨rfl, rfl⟩
  · intro c hc vars0 limit responses req hreq
    refine run_query_go_requests_pred c limit
      (fun r => assocLookup r.headers "Authorization" = some ("Bearer " ++ c.token))
      (fun cursor vars => ?_) responses .null (vars0.getD []) [] [] (by simp) req hreq
    simp [mkHeaders, assocLookup]

/-- The first (and only) request of a one-page run of the demo client. -/
def c8Req : ApiRequest := ⟨mkHeaders demoClient, update_variables demoClient 500 JVal.null []⟩

/-- Witness for C8: the missing-token failure at a concrete payload, and the
bearer header on the concrete request of a one-page run. -/
theorem service_token_required_and_bearer_witness :
    clientInit ⟨none, none⟩ (JVal.num 1) = .error "DBT_CLOUD_SERVICE_TOKEN is not set" ∧
    (webhook_handler ⟨none, none⟩ (mkPayload (JVal.str "job.run.completed")
        (JVal.str "w") (JVal.str "1") (JVal.num 1) (JVal.str "p") (JVal.str "e")
        (JVal.str "j") (JVal.str "r")) []).requests = [] ∧
    assocLookup c8Req.headers "Authorization" =
      some ("Bearer " ++ demoClient.token) :=
  ⟨((service_token_required_and_bearer ⟨none, none⟩ (JVal.num 1)).1 rfl).1,
   (((service_token_required_and_bearer ⟨none, none⟩ (JVal.num 1)).1 rfl).2
      (JVal.str "job.run.completed") (JVal.str "w") (JVal.str "1") (JVal.str "p")
      (JVal.str "e") (JVal.str "j") (JVal.str "r") []).2,
   (service_token_required_and_bearer ⟨some "svc-token", none⟩ (JVal.num 10)).2
     demoClient rfl none 500 [mkResponse [] (pageInfoLast true)] c8Req
     (List.mem_singleton_self c8Req)⟩

/-- C7: when a page request hits a 4xx or 5xx response after any number of
successful continuing pages, run_query aborts with the HTTPError raised by
raise_for_status: its result carries no edge list at all (the edges
accumulated from earlier pages are discarded with the raised error), the
failing request is not retried and no request follows it (exactly
pages.length + 1 requests were issued), and the orchestrator, after logging,
re-raises the same error unchanged and submits no log batch. -/
theorem http_error_aborts_fetch (c : DiscoveryApiClient)
    (vars0 : Option (List (String × JVal))) (limit : Int)
    (pages : List (List JVal × String)) (hcur : ∀ p ∈ pages, p.2 ≠ "")
    (bad : HttpResponse) (hbad : 400 ≤ bad.status ∧ bad.status < 600)
    (rest : List HttpResponse) (t : String) (u : Option String)
    (eventType webhookName runId environmentId projectName environmentName
      jobName runReason : JVal) :
    (c.run_query vars0 limit (mkContinuing pages ++ bad :: rest)).result =
      .error ("HTTPError: " ++ toString bad.status) ∧
    (c.run_query vars0 limit (mkContinuing pages ++ bad :: rest)).requests.length =
      pages.length + 1 ∧
    (webhook_handler ⟨some t, u⟩ (mkPayload eventType webhookName runId
        environmentId projectName environmentName jobName runReason)
        (mkContinuing pages ++ bad :: rest)).result =
      .error ("HTTPError: " ++ toString bad.status) ∧
    (webhook_handler ⟨some t, u⟩ (mkPayload eventType webhookName runId
        environmentId projectName environmentName jobName runReason)
        (mkContinuing pages ++ bad :: rest)).batches = [] := by
  have h1 := run_query_go_mock_bad c limit pages hcur bad hbad rest .null
    (vars0.getD []) [] []
  have hres : ((⟨environmentId, t, u.getD DEFAULT_URL⟩ : DiscoveryApiClient).run_query
      (some queryVariables) 500 (mkContinuing pages ++ bad :: rest)).result =
      .error ("HTTPError: " ++ toString bad.status) :=
    (run_query_go_mock_bad ⟨environmentId, t, u.getD DEFAULT_URL⟩ 500 pages hcur
      bad hbad rest .null queryVariables [] []).1
  refine ⟨h1.1, ?_, ?_, ?_⟩
  · have h2 := h1.2
    simp only [List.length_nil, Nat.zero_add] at h2
    exact h2
  · rw [webhook_handler_reduces]
    simp only [handlerDispatch, hres]
  · rw [webhook_handler_reduces]
    simp only [handlerDispatch, hres]

/-- Witness for C7: one good page, then a 500 response. -/
theorem http_error_aborts_fetch_witness :
    (demoClient.run_query none 500
        (mkContinuing c3Pages ++ (⟨500, JVal.null⟩ : HttpResponse) :: [])).result =
      .error ("HTTPError: " ++ toString (500 : Nat)) ∧
    (demoClient.run_query none 500
        (mkContinuing c3Pages ++ (⟨500, JVal.null⟩ : HttpResponse) :: [])).requests.length =
      c3Pages.length + 1 ∧
    (webhook_handler ⟨some "svc-token", none⟩ (mkPayload (JVal.str "job.run.completed")
        (JVal.str "w") (JVal.str "55") (JVal.num 10) (JVal.str "p") (JVal.str "e")
        (JVal.str "j") (JVal.str "r"))
        (mkContinuing c3Pages ++ (⟨500, JVal.null⟩ : HttpResponse) :: [])).result =
      .error ("HTTPError: " ++ toString (500 : Nat)) ∧
    (webhook_handler ⟨some "svc-token", none⟩ (mkPayload (JVal.str "job.run.completed")
        (JVal.str "w") (JVal.str "55") (JVal.num 10) (JVal.str "p") (JVal.str "e")
        (JVal.str "j") (JVal.str "r"))
        (mkContinuing c3Pages ++ (⟨500, JVal.null⟩ : HttpResponse) :: [])).batches = [] :=
  http_error_aborts_fetch demoClient none 500 c3Pages (by decide) ⟨500, JVal.null⟩
    (by decide) [] "svc-token" none (JVal.str "job.run.completed") (JVal.str "w")
    (JVal.str "55") (JVal.num 10) (JVal.str "p") (JVal.str "e") (JVal.str "j")
    (JVal.str "r")

/-- C1 (code bug witness): on a payload whose eventType is the run-start
value "job.run.started", the handler still performs the metadata fetch (one
request against the one-page mock), still extracts and still dispatches one
log batch, because the source compares the payload string against the enum
member WebhookEventType.STARTED itself rather than its .value, a comparison
that is never true in Python; the claimed skip branch is unreachable.  The
claim that a run-start event performs no fetch, no extraction and no
dispatch is therefore false on the code, while the success response is still
returned. -/
theorem started_event_still_fetches_and_dispatches :
    startedOutcome.requests.length = 1 ∧
    startedOutcome.batches.length = 1 ∧
    startedOutcome.result = .ok successBody ∧
    (WebhookEventType.STARTED.value = "job.run.started") ∧
    jvalEqEnum (JVal.str WebhookEventType.STARTED.value) WebhookEventType.STARTED = false :=
  ⟨rfl, rfl, rfl, rfl, rfl⟩
